import Mathlib

/-
Verification of the "split-the-g" web application against its specification.

The development shallowly embeds the two pieces of logic the specification
talks about, both from `src/app/routes/home.tsx`:

* the server `action` (lines 27-170): fetch the Roboflow inference API,
  interpret the returned JSON, upload the two returned images, insert one
  row into the `scores` table, and redirect to `/score/<id>`; every failure
  is caught and turned into a `{success, error, message, status}` object;

* the client detection loop `detectFrame` (lines 251-344): a 500 ms
  interval that counts consecutive frames containing both a `glass` and a
  `G` prediction, auto-capturing and submitting once the counter reaches
  the threshold, then deactivating the camera.

External effects (the HTTP fetch, the storage uploads, the geolocation
lookup and the database insert) are modelled by an environment `Env` of
oracles, and the action is a pure function from the environment to the
list of effect events it performs plus its returned outcome.
-/

namespace SplitTheG

/-- One prediction object of the inference response; the source reads its
`class` field (`pred.class === "G"`), modelled here as `cls`. -/
structure Pred where
  cls : String
deriving DecidableEq

/-- The inner `predictions` array: the source reads
`["pint results"].predictions.predictions`. -/
structure InnerPreds where
  predictions : List Pred
deriving DecidableEq

/-- The `"pint results"` object of an output; its `predictions` field may be
absent (the source uses optional chaining `?.predictions`). -/
structure PintResults where
  predictions : Option InnerPreds
deriving DecidableEq

/-- An object with an optional `value` field, as accessed by
`splitImageData?.[0]?.value` and `pintImageData?.value`. -/
structure ImageData where
  value : Option String
deriving DecidableEq

/-- A point of the plane with rational coordinates, used by the modelled
scoring geometry. -/
structure GeoPoint where
  x : ℚ
  y : ℚ
deriving DecidableEq

/-- The first output object of the API response (`result.outputs[0]`).
`pintResults`, `splitImage` and `pintImage` mirror the fields the action
reads (`"pint results"`, `"split image"`, `"pint image"`), each level
optional exactly where the source uses optional chaining.  `gCenter` and
`splitCenter` are the geometric predictions consumed by the modelled
scoring function (see `calculateScore`). -/
structure Output where
  pintResults : Option PintResults
  splitImage : Option (List ImageData)
  pintImage : Option ImageData
  gCenter : GeoPoint
  splitCenter : GeoPoint
deriving DecidableEq

/-- The parsed JSON body of the inference response: its `outputs` array
(`result.outputs?.[0]` is modelled as `outputs.head?`, covering both an
absent and an empty array). -/
structure ApiResponse where
  outputs : List Output
deriving DecidableEq

/-- The result of the `fetch` call: `ok`, `status`, the text body used in
the thrown error message when `ok` is false, and the parsed JSON body. -/
structure FetchResponse where
  ok : Bool
  status : Nat
  errorText : String
  body : ApiResponse

/-- The location data returned by `getLocationData(clientIP)`. -/
structure LocationData where
  city : String
  region : String
  country : String
  countryCode : String

/-- The row handed back by the database insert (`.select().single()`); the
action only reads its `id`. -/
structure InsertedScore where
  id : Nat
deriving DecidableEq

/-- Outcome of the supabase insert: either the inserted row or an error
(the source throws `dbError`; supabase errors carry a `message`). -/
inductive DbResult where
  | ok (score : InsertedScore)
  | err (message : String)

/-- The record inserted into the `scores` table (source lines 127-142). -/
structure ScoreRow where
  splitScore : ℚ
  splitImageUrl : String
  pintImageUrl : String
  username : String
  createdAt : String
  sessionId : String
  city : String
  region : String
  country : String
  countryCode : String
deriving DecidableEq

/-- The environment of oracles for one run of the action: the fetch
response, the upload service (image data and bucket name to public URL),
the geolocation result, the database result, and the values the action
computes before the `try` block (`generateBeerUsername()`,
`crypto.randomUUID()`, `new Date().toISOString()` and the client IP
extracted from the request headers). -/
structure Env where
  fetch : FetchResponse
  upload : String → String → String
  location : LocationData
  db : DbResult
  username : String
  sessionId : String
  createdAt : String
  clientIP : String

/-- The observable side effects the action performs, in order. -/
inductive Event where
  | apiCall (image : String)
  | upload (bucket : String) (image : String)
  | locationLookup (ip : String)
  | dbInsert (table : String) (row : ScoreRow)
deriving DecidableEq

/-- Recognizer for the inference-API call event. -/
def isApiCall : Event → Bool
  | Event.apiCall _ => true
  | _ => false

/-- Recognizer for an image-upload event. -/
def isUpload : Event → Bool
  | Event.upload _ _ => true
  | _ => false

/-- Recognizer for a database-insert event. -/
def isDbInsert : Event → Bool
  | Event.dbInsert _ _ => true
  | _ => false

/-- What the action returns: a redirect response with a `Set-Cookie`
header, or a plain object `{success, error, message, status}` (field order
here: success, error, message, status). -/
inductive Outcome where
  | redirect (url : String) (cookie : String)
  | failure (success : Bool) (error : String) (message : String) (status : Nat)
deriving DecidableEq

/-- The HTTP status carried by an outcome (a redirect is a 302). -/
def statusOf : Outcome → Nat
  | Outcome.redirect _ _ => 302
  | Outcome.failure _ _ _ s => s

/-- JavaScript falsiness of an optional string, as tested by
`if (!splitImage || !pintImage)`: absent and empty strings are falsy. -/
def jsFalsy : Option String → Bool
  | none => true
  | some s => s.isEmpty

/-- `result.outputs?.[0]?.["pint results"]?.predictions?.predictions || []`
(source line 78-79). -/
def pintPredictionsOf (r : ApiResponse) : List Pred :=
  ((((r.outputs.head?).bind Output.pintResults).bind
      PintResults.predictions).map InnerPreds.predictions).getD []

/-- `pintPredictions.some((pred) => pred.class === "G")` (source line 80). -/
def hasGOf (env : Env) : Bool :=
  (pintPredictionsOf env.fetch.body).any fun p => p.cls == "G"

/-- `result.outputs[0]["split image"]?.[0]?.value` (source lines 98, 104). -/
def splitVal (o : Output) : Option String :=
  (o.splitImage.bind List.head?).bind ImageData.value

/-- `result.outputs[0]["pint image"]?.value` (source lines 99, 105). -/
def pintVal (o : Output) : Option String :=
  o.pintImage.bind ImageData.value

/-- Modelled from the spec: the scoring module `~/utils/scoring` imported
by the route is not under `src/`.  The spec says the scoring function
turns the external model's geometric predictions into a single numeric
grade by "geometric distance math": here, a weighted squared distance
between the centre of the detected G logo and the centre of the detected
split line, the horizontal offset weighted double. -/
def weightedDistance (o : Output) : ℚ :=
  2 * (o.gCenter.x - o.splitCenter.x) ^ 2 + (o.gCenter.y - o.splitCenter.y) ^ 2

/-- Modelled from the spec: the grade obtained by comparing the weighted
distance against fixed thresholds ("compute a weighted distance and
compare thresholds"), a grade out of 5.0 as displayed by the score page. -/
def thresholdGrade (d : ℚ) : ℚ :=
  if d ≤ 1 / 100 then 5
  else if d ≤ 1 / 10 then 4
  else if d ≤ 1 / 2 then 3
  else 2

/-- Modelled from the spec: `calculateScore(result.outputs[0])` from
`~/utils/scoring` (file not under `src/`): compute the weighted distance
of the geometric predictions and compare it against the thresholds. -/
def calculateScore (o : Output) : ℚ :=
  thresholdGrade (weightedDistance o)

/-- The row the action inserts into `scores` (source lines 127-142), built
from the score of the first output, the two upload URLs, and the
generated username, timestamps, session id and location data. -/
def rowOf (env : Env) (o : Output) : ScoreRow :=
  { splitScore := calculateScore o
  , splitImageUrl := env.upload ((splitVal o).getD "") "split-images"
  , pintImageUrl := env.upload ((pintVal o).getD "") "pint-images"
  , username := env.username
  , createdAt := env.createdAt
  , sessionId := env.sessionId
  , city := env.location.city
  , region := env.location.region
  , country := env.location.country
  , countryCode := env.location.countryCode }

/-- The `Set-Cookie` header value set before the redirect (lines 147-151). -/
def sessionCookie (env : Env) : String :=
  "split-g-session=" ++ env.sessionId ++ "; Path=/; Max-Age=31536000; SameSite=Lax"

/-- The server `action` of `src/app/routes/home.tsx` (lines 27-170) as a
pure function from the environment and the submitted base64 image to the
ordered list of effect events performed and the returned outcome.  The
`try`/`catch` of the source is modelled by each failing step returning the
object the catch handler builds from the thrown error (all thrown errors
are `Error` instances carrying the shown message, including the supabase
error whose class extends `Error`). -/
def action (env : Env) (img : String) : List Event × Outcome :=
  if !env.fetch.ok then
    ([Event.apiCall img],
     Outcome.failure false
       ("API request failed (" ++ toString env.fetch.status ++ "): " ++ env.fetch.errorText)
       "Failed to process image" 500)
  else if !hasGOf env then
    ([Event.apiCall img],
     Outcome.failure false "No G detected" "No G pattern detected" 400)
  else
    match env.fetch.body.outputs.head? with
    | none =>
        ([Event.apiCall img],
         Outcome.failure false "No outputs received from API" "Failed to process image" 500)
    | some out0 =>
        if jsFalsy (splitVal out0) || jsFalsy (pintVal out0) then
          ([Event.apiCall img],
           Outcome.failure false "Missing required image data from API response"
             "Failed to process image" 500)
        else
          let tr := [Event.apiCall img,
                     Event.upload "split-images" ((splitVal out0).getD ""),
                     Event.upload "pint-images" ((pintVal out0).getD ""),
                     Event.locationLookup env.clientIP,
                     Event.dbInsert "scores" (rowOf env out0)]
          match env.db with
          | DbResult.err m =>
              (tr, Outcome.failure false m "Failed to process image" 500)
          | DbResult.ok sc =>
              (tr, Outcome.redirect ("/score/" ++ toString sc.id) (sessionCookie env))

/-- The full event trace of a successful run, for stating the order of
steps; empty when the response has no first output. -/
def successTrace (env : Env) (img : String) : List Event :=
  match env.fetch.body.outputs.head? with
  | none => []
  | some o => [Event.apiCall img,
               Event.upload "split-images" ((splitVal o).getD ""),
               Event.upload "pint-images" ((pintVal o).getD ""),
               Event.locationLookup env.clientIP,
               Event.dbInsert "scores" (rowOf env o)]

/-- Whether the database insert succeeded. -/
def dbIsOk (env : Env) : Bool :=
  match env.db with
  | DbResult.ok _ => true
  | DbResult.err _ => false

/-- The id of the inserted row (0 when the insert failed). -/
def dbIdOf (env : Env) : Nat :=
  match env.db with
  | DbResult.ok sc => sc.id
  | DbResult.err _ => 0

/-- The split scores of the rows inserted during a trace. -/
def insertedScores (tr : List Event) : List ℚ :=
  tr.filterMap fun e =>
    match e with
    | Event.dbInsert _ row => some row.splitScore
    | _ => none

/-- The client-side state touched by one tick of the detection loop
(source lines 240-344): the `consecutiveDetections` counter, whether the
capture branch has fired (`captured`, after which the interval is cleared
and no further frame is processed), and the mirrored React state
`isCameraActive`, `feedbackMessage`, `isProcessing`, `isSubmitting`. -/
structure LoopState where
  counter : Nat
  captured : Bool
  cameraActive : Bool
  feedback : String
  isProcessing : Bool
  isSubmitting : Bool
deriving DecidableEq

/-- The initial client state: counter 0, camera running with the video
ready (the loop only runs under those preconditions), initial feedback
"Show your pint glass". -/
def initLoopState : LoopState :=
  { counter := 0
  , captured := false
  , cameraActive := true
  , feedback := "Show your pint glass"
  , isProcessing := false
  , isSubmitting := false }

/-- A polled frame detects correctly when its predictions contain both a
`glass` and a `G` class (`hasGlass && hasG`, source lines 269-272). -/
def goodFrame (preds : List Pred) : Bool :=
  (preds.any fun p => p.cls == "glass") && (preds.any fun p => p.cls == "G")

/-- One tick of `detectFrame` (source lines 261-333) on the predictions
returned by the model for the current video frame.  While the camera is
active both `videoRef` and `canvasRef` are rendered, so the capture branch
stops the stream, deactivates the camera and submits the form; after the
capture the interval is cleared, modelled by the `captured` guard. -/
def detectStep (s : LoopState) (preds : List Pred) : LoopState :=
  if s.captured then s
  else
    let hasGlass := preds.any fun p => p.cls == "glass"
    let hasG := preds.any fun p => p.cls == "G"
    if hasGlass && hasG then
      if 4 ≤ s.counter then
        { s with counter := s.counter + 1
               , captured := true
               , cameraActive := false
               , feedback := "Perfect! Processing your pour..."
               , isProcessing := true
               , isSubmitting := true }
      else if 1 ≤ s.counter then
        { s with counter := s.counter + 1, feedback := "Hold still..." }
      else
        { s with counter := s.counter + 1, feedback := "Keep the glass centered..." }
    else if !hasGlass then
      { s with counter := 0, feedback := "Show your pint glass" }
    else
      { s with counter := 0, feedback := "Make sure the G pattern is visible" }

/-- Run the detection loop from the initial state over a list of polled
frames. -/
def runLoop (fs : List (List Pred)) : LoopState :=
  List.foldl detectStep initLoopState fs

/-- Specification-level consecutive-streak rule: starting with counter
`c`, capture fires on a frame that detects correctly with the counter
already at 4 or above; a frame that does not detect resets the counter. -/
def consecutiveCaptureSpec : Nat → List (List Pred) → Bool
  | _, [] => false
  | c, f :: fs =>
      if goodFrame f then decide (4 ≤ c) || consecutiveCaptureSpec (c + 1) fs
      else consecutiveCaptureSpec 0 fs

/-- Run the loop while counting form submissions (transitions of
`isSubmitting` from false to true). -/
def runLoopCount : LoopState → Nat → List (List Pred) → LoopState × Nat
  | s, n, [] => (s, n)
  | s, n, f :: fs =>
      let t := detectStep s f
      runLoopCount t (n + (if t.isSubmitting && !s.isSubmitting then 1 else 0)) fs

/-- The dependencies guarding the detection-loop effect (source lines
252-259): it returns without starting the interval unless the code runs on
the client, the inference engine and model worker exist, the camera is
active and the video is ready. -/
structure EffectDeps where
  isClient : Bool
  inferEngine : Bool
  modelWorkerId : Option String
  isCameraActive : Bool
  isVideoReady : Bool

/-- The guard of the detection-loop effect: all preconditions hold. -/
def effectGuard (d : EffectDeps) : Bool :=
  d.isClient && d.inferEngine && d.modelWorkerId.isSome &&
    d.isCameraActive && d.isVideoReady

/-- The polling period passed to `setInterval` (source line 335). -/
def detectIntervalMs : Nat := 500

/-- The interval owned by the detection effect: present with the fixed
500 ms period exactly when the guard holds, cancelled (via the effect
cleanup `clearInterval`) whenever a precondition stops holding. -/
def detectionInterval (d : EffectDeps) : Option Nat :=
  if effectGuard d then some detectIntervalMs else none

/-- The claimed majority-vote trigger, for comparison with the code: a
strict majority of the polled frames detect correctly. -/
def majorityOfFrames (fs : List (List Pred)) : Bool :=
  decide (fs.length < 2 * (fs.filter goodFrame).length)

/-- A frame whose predictions contain both required classes. -/
def goodPreds : List Pred := [⟨"glass"⟩, ⟨"G"⟩]

/-- A frame with no predictions at all. -/
def badPreds : List Pred := []

/-- Five consecutive correctly-detecting frames. -/
def fiveGood : List (List Pred) := List.replicate 5 goodPreds

/-- Six undetecting frames followed by five detecting ones: the streak
rule captures here although only 5 of the 11 frames detected. -/
def burstFrames : List (List Pred) :=
  List.replicate 6 badPreds ++ List.replicate 5 goodPreds

/-- Thirteen alternating frames (7 detecting, 6 not): a strict majority
detects but no streak ever exceeds length one. -/
def alternatingFrames : List (List Pred) :=
  [goodPreds, badPreds, goodPreds, badPreds, goodPreds, badPreds, goodPreds,
   badPreds, goodPreds, badPreds, goodPreds, badPreds, goodPreds]

/-- A mid-streak loop state: three consecutive detections so far. -/
def midState : LoopState :=
  { counter := 3
  , captured := false
  , cameraActive := true
  , feedback := "Hold still..."
  , isProcessing := false
  , isSubmitting := false }

/-- Effect dependencies with every precondition satisfied. -/
def depsAll : EffectDeps := ⟨true, true, some "worker", true, true⟩

/-- Effect dependencies with the camera inactive. -/
def depsCameraOff : EffectDeps := ⟨true, true, some "worker", false, true⟩

/-- A first output carrying a G prediction in the pint results, both
images present, and concrete geometry. -/
def out0ex : Output :=
  { pintResults := some ⟨some ⟨[⟨"G"⟩]⟩⟩
  , splitImage := some [⟨some "SPLITDATA"⟩]
  , pintImage := some ⟨some "PINTDATA"⟩
  , gCenter := ⟨0, 0⟩
  , splitCenter := ⟨0, 0⟩ }

/-- An environment on which every step of the action succeeds. -/
def env0 : Env :=
  { fetch := ⟨true, 200, "", ⟨[out0ex]⟩⟩
  , upload := fun _ bucket => "https://cdn/" ++ bucket
  , location := ⟨"Dublin", "Leinster", "Ireland", "IE"⟩
  , db := DbResult.ok ⟨7⟩
  , username := "StoutSage"
  , sessionId := "sid-1"
  , createdAt := "2025-01-01T00:00:00.000Z"
  , clientIP := "1.2.3.4" }

/-- An environment whose fetch succeeds but whose response has an empty
`outputs` array. -/
def envNoOutputs : Env :=
  { fetch := ⟨true, 200, "", ⟨[]⟩⟩
  , upload := fun _ _ => ""
  , location := ⟨"", "", "", ""⟩
  , db := DbResult.err "boom"
  , username := ""
  , sessionId := ""
  , createdAt := ""
  , clientIP := "" }

/-- An environment whose response detects no G in the pint results. -/
def envNoG : Env :=
  { fetch := ⟨true, 200, "",
      ⟨[{ pintResults := some ⟨some ⟨[⟨"glass"⟩]⟩⟩
        , splitImage := some [⟨some "S"⟩]
        , pintImage := some ⟨some "P"⟩
        , gCenter := ⟨0, 0⟩
        , splitCenter := ⟨0, 0⟩ }]⟩⟩
  , upload := fun _ _ => ""
  , location := ⟨"", "", "", ""⟩
  , db := DbResult.ok ⟨1⟩
  , username := ""
  , sessionId := ""
  , createdAt := ""
  , clientIP := "" }

/-- An environment whose fetch fails with a 503. -/
def envFetchFail : Env :=
  { fetch := ⟨false, 503, "unavailable", ⟨[]⟩⟩
  , upload := fun _ _ => ""
  , location := ⟨"", "", "", ""⟩
  , db := DbResult.ok ⟨1⟩
  , username := ""
  , sessionId := ""
  , createdAt := ""
  , clientIP := "" }

/-- An environment where everything succeeds except the database insert. -/
def envDbErr : Env :=
  { fetch := ⟨true, 200, "", ⟨[out0ex]⟩⟩
  , upload := fun _ _ => ""
  , location := ⟨"", "", "", ""⟩
  , db := DbResult.err "insert failed"
  , username := ""
  , sessionId := ""
  , createdAt := ""
  , clientIP := "" }

/-- An environment whose first output exists and detects a G but is
missing the split image data. -/
def envMissingImage : Env :=
  { fetch := ⟨true, 200, "",
      ⟨[{ pintResults := some ⟨some ⟨[⟨"G"⟩]⟩⟩
        , splitImage := none
        , pintImage := some ⟨some "P"⟩
        , gCenter := ⟨0, 0⟩
        , splitCenter := ⟨0, 0⟩ }]⟩⟩
  , upload := fun _ _ => ""
  , location := ⟨"", "", "", ""⟩
  , db := DbResult.ok ⟨1⟩
  , username := ""
  , sessionId := ""
  , createdAt := ""
  , clientIP := "" }

/-- When the response has no first output, the pint predictions are empty
and no G is detected. -/
lemma hasGOf_of_head_none (env : Env)
    (h : env.fetch.body.outputs.head? = none) : hasGOf env = false := by
  simp [hasGOf, pintPredictionsOf, h]

/-- A detected G in the pint results forces a first output to exist. -/
lemma head_some_of_hasG (env : Env) (h : hasGOf env = true) :
    ∃ o, env.fetch.body.outputs.head? = some o := by
  cases ho : env.fetch.body.outputs.head? with
  | none => rw [hasGOf_of_head_none env ho] at h; cases h
  | some o => exact ⟨o, rfl⟩

/-- Branch equation: failed fetch. -/
lemma action_fetch_fail (env : Env) (img : String) (h : env.fetch.ok = false) :
    action env img =
      ([Event.apiCall img],
       Outcome.failure false
         ("API request failed (" ++ toString env.fetch.status ++ "): " ++ env.fetch.errorText)
         "Failed to process image" 500) := by
  simp [action, h]

/-- Branch equation: no G in the pint results. -/
lemma action_noG (env : Env) (img : String) (hok : env.fetch.ok = true)
    (hg : hasGOf env = false) :
    action env img =
      ([Event.apiCall img],
       Outcome.failure false "No G detected" "No G pattern detected" 400) := by
  simp [action, hok, hg]

/-- Branch equation: split or pint image data missing or empty. -/
lemma action_missing_image (env : Env) (img : String) (o : Output)
    (hok : env.fetch.ok = true) (hg : hasGOf env = true)
    (ho : env.fetch.body.outputs.head? = some o)
    (him : (jsFalsy (splitVal o) || jsFalsy (pintVal o)) = true) :
    action env img =
      ([Event.apiCall img],
       Outcome.failure false "Missing required image data from API response"
         "Failed to process image" 500) := by
  simp [action, hok, hg, ho, him]

/-- Branch equation: database insert fails after both uploads. -/
lemma action_db_err (env : Env) (img : String) (o : Output) (m : String)
    (hok : env.fetch.ok = true) (hg : hasGOf env = true)
    (ho : env.fetch.body.outputs.head? = some o)
    (him : (jsFalsy (splitVal o) || jsFalsy (pintVal o)) = false)
    (hdb : env.db = DbResult.err m) :
    action env img =
      ([Event.apiCall img,
        Event.upload "split-images" ((splitVal o).getD ""),
        Event.upload "pint-images" ((pintVal o).getD ""),
        Event.locationLookup env.clientIP,
        Event.dbInsert "scores" (rowOf env o)],
       Outcome.failure false m "Failed to process image" 500) := by
  simp [action, hok, hg, ho, him, hdb]

/-- Branch equation: every step succeeds. -/
lemma action_db_ok (env : Env) (img : String) (o : Output) (sc : InsertedScore)
    (hok : env.fetch.ok = true) (hg : hasGOf env = true)
    (ho : env.fetch.body.outputs.head? = some o)
    (him : (jsFalsy (splitVal o) || jsFalsy (pintVal o)) = false)
    (hdb : env.db = DbResult.ok sc) :
    action env img =
      ([Event.apiCall img,
        Event.upload "split-images" ((splitVal o).getD ""),
        Event.upload "pint-images" ((pintVal o).getD ""),
        Event.locationLookup env.clientIP,
        Event.dbInsert "scores" (rowOf env o)],
       Outcome.redirect ("/score/" ++ toString sc.id) (sessionCookie env)) := by
  simp [action, hok, hg, ho, him, hdb]

/-- A tick after the capture branch fired leaves the state unchanged (the
interval was cleared). -/
lemma detectStep_of_captured (s : LoopState) (f : List Pred)
    (h : s.captured = true) : detectStep s f = s := by
  simp [detectStep, h]

/-- The whole loop is inert once the capture branch fired. -/
lemma foldl_detectStep_of_captured (fs : List (List Pred)) :
    ∀ s : LoopState, s.captured = true → List.foldl detectStep s fs = s := by
  induction fs with
  | nil => intro s _; rfl
  | cons f fs ih =>
      intro s h
      rw [List.foldl_cons, detectStep_of_captured s f h]
      exact ih s h

/-- The loop captures exactly when the consecutive-streak rule fires,
starting from the current counter value. -/
lemma foldl_captured_eq (fs : List (List Pred)) :
    ∀ s : LoopState, s.captured = false →
      (List.foldl detectStep s fs).captured = consecutiveCaptureSpec s.counter fs := by
  induction fs with
  | nil => intro s h; simpa [consecutiveCaptureSpec] using h
  | cons f fs ih =>
      intro s h
      rw [List.foldl_cons]
      by_cases h1 : (f.any fun p => p.cls == "glass") = true
      · by_cases h2 : (f.any fun p => p.cls == "G") = true
        · by_cases hc : 4 ≤ s.counter
          · have ht : detectStep s f =
                { s with counter := s.counter + 1
                       , captured := true
                       , cameraActive := false
                       , feedback := "Perfect! Processing your pour..."
                       , isProcessing := true
                       , isSubmitting := true } := by
              simp [detectStep, h, h1, h2, hc]
            rw [ht, foldl_detectStep_of_captured fs _ rfl]
            simp [consecutiveCaptureSpec, goodFrame, h1, h2, hc]
          · by_cases hc1 : 1 ≤ s.counter
            · have ht : detectStep s f =
                  { s with counter := s.counter + 1, feedback := "Hold still..." } := by
                simp [detectStep, h, h1, h2, hc, hc1]
              rw [ht, ih { s with counter := s.counter + 1, feedback := "Hold still..." } h]
              simp [consecutiveCaptureSpec, goodFrame, h1, h2, hc]
            · have ht : detectStep s f =
                  { s with counter := s.counter + 1
                         , feedback := "Keep the glass centered..." } := by
                simp [detectStep, h, h1, h2, hc, hc1]
              rw [ht, ih { s with counter := s.counter + 1
                                , feedback := "Keep the glass centered..." } h]
              simp [consecutiveCaptureSpec, goodFrame, h1, h2, hc]
        · have ht : detectStep s f =
              { s with counter := 0, feedback := "Make sure the G pattern is visible" } := by
            simp [detectStep, h, h1, h2]
          rw [ht, ih { s with counter := 0
                            , feedback := "Make sure the G pattern is visible" } h]
          simp [consecutiveCaptureSpec, goodFrame, h1, h2]
      · have ht : detectStep s f =
            { s with counter := 0, feedback := "Show your pint glass" } := by
          simp [detectStep, h, h1]
        rw [ht, ih { s with counter := 0, feedback := "Show your pint glass" } h]
        simp [consecutiveCaptureSpec, goodFrame, h1]

/-- A run of correctly-detecting frames long enough to complete the streak
makes the streak rule fire, whatever follows. -/
lemma spec_of_goodrun : ∀ (m : List (List Pred)) (c : Nat) (r : List (List Pred)),
    (∀ f ∈ m, goodFrame f = true) → 5 ≤ c + m.length → 1 ≤ m.length →
    consecutiveCaptureSpec c (m ++ r) = true := by
  intro m
  induction m with
  | nil => intro c r _ _ h1; simp at h1
  | cons f m ih =>
      intro c r hg h5 _
      have hgf : goodFrame f = true := hg f (List.mem_cons_self f m)
      rw [List.cons_append]
      by_cases hc : 4 ≤ c
      · simp [consecutiveCaptureSpec, hgf, hc]
      · have hm : 1 ≤ m.length := by
          simp only [List.length_cons] at h5; omega
        have hrec := ih (c + 1) r (fun g hgm => hg g (List.mem_cons_of_mem f hgm))
          (by simp only [List.length_cons] at h5; omega) hm
        simp [consecutiveCaptureSpec, hgf, hrec]

/-- Prefixing any frames before a suffix on which the streak rule fires
for every counter value preserves the firing. -/
lemma spec_append_all : ∀ (l rest : List (List Pred)),
    (∀ c, consecutiveCaptureSpec c rest = true) →
    ∀ c, consecutiveCaptureSpec c (l ++ rest) = true := by
  intro l
  induction l with
  | nil => intro rest h c; simpa using h c
  | cons f l ih =>
      intro rest h c
      rw [List.cons_append]
      cases hgf : goodFrame f with
      | true => simp [consecutiveCaptureSpec, hgf, ih rest h (c + 1)]
      | false => simp [consecutiveCaptureSpec, hgf, ih rest h 0]

/-- When the streak rule fires, the frame list decomposes into either an
all-detecting run completing the pending counter, or a full block of five
consecutive detecting frames somewhere inside. -/
lemma spec_capture_decomp : ∀ (fs : List (List Pred)) (c : Nat),
    consecutiveCaptureSpec c fs = true →
    (∃ m r, fs = m ++ r ∧ (∀ f ∈ m, goodFrame f = true) ∧
        5 ≤ c + m.length ∧ 1 ≤ m.length) ∨
    (∃ l m r, fs = l ++ m ++ r ∧ m.length = 5 ∧ ∀ f ∈ m, goodFrame f = true) := by
  intro fs
  induction fs with
  | nil => intro c h; simp [consecutiveCaptureSpec] at h
  | cons f fs ih =>
      intro c h
      cases hgf : goodFrame f with
      | true =>
          by_cases hc : 4 ≤ c
          · left
            exact ⟨[f], fs, rfl, by simp [hgf], by simp; omega, by simp⟩
          · have h2 : consecutiveCaptureSpec (c + 1) fs = true := by
              simpa [consecutiveCaptureSpec, hgf, hc] using h
            rcases ih (c + 1) h2 with ⟨m, r, heq, hgm, h5, hm1⟩ | ⟨l, m, r, heq, h5, hgm⟩
            · left
              refine ⟨f :: m, r, by simp [heq], ?_, ?_, by simp⟩
              · intro g hgmem
                rcases List.mem_cons.mp hgmem with hgl | hgr
                · exact hgl ▸ hgf
                · exact hgm g hgr
              · simp only [List.length_cons]; omega
            · right
              exact ⟨f :: l, m, r, by simp [heq], h5, hgm⟩
      | false =>
          have h2 : consecutiveCaptureSpec 0 fs = true := by
            simpa [consecutiveCaptureSpec, hgf] using h
          rcases ih 0 h2 with ⟨m, r, heq, hgm, h5, hm1⟩ | ⟨l, m, r, heq, h5, hgm⟩
          · right
            refine ⟨[f], m.take 5, m.drop 5 ++ r, ?_, ?_, ?_⟩
            · rw [heq, List.singleton_append, List.cons_append, ← List.append_assoc,
                List.take_append_drop]
            · rw [List.length_take]; omega
            · intro g hgmem
              exact hgm g (List.take_subset 5 m hgmem)
          · right
            exact ⟨f :: l, m, r, by simp [heq], h5, hgm⟩

/-- The loop from the initial state captures exactly when the frame list
contains five consecutive correctly-detecting frames. -/
lemma runLoop_captured_iff (fs : List (List Pred)) :
    (runLoop fs).captured = true ↔
      ∃ l m r, fs = l ++ m ++ r ∧ m.length = 5 ∧ ∀ f ∈ m, goodFrame f = true := by
  rw [runLoop, foldl_captured_eq fs initLoopState rfl]
  show consecutiveCaptureSpec 0 fs = true ↔ _
  constructor
  · intro h
    rcases spec_capture_decomp fs 0 h with ⟨m, r, heq, hgm, h5, hm1⟩ | hfive
    · refine ⟨[], m.take 5, m.drop 5 ++ r, ?_, ?_, ?_⟩
      · rw [heq, List.nil_append, ← List.append_assoc, List.take_append_drop]
      · rw [List.length_take]; omega
      · intro g hgmem
        exact hgm g (List.take_subset 5 m hgmem)
    · exact hfive
  · rintro ⟨l, m, r, heq, h5, hgm⟩
    subst heq
    rw [List.append_assoc]
    exact spec_append_all l (m ++ r)
      (fun c => spec_of_goodrun m c r hgm (by omega) (by omega)) 0

/-- One tick preserves the counter bounds: at most 4 while the capture
branch has not fired, at most 5 afterwards. -/
lemma detectStep_counter_bound (s : LoopState) (f : List Pred)
    (h4 : s.captured = false → s.counter ≤ 4)
    (h5 : s.captured = true → s.counter ≤ 5) :
    ((detectStep s f).captured = false → (detectStep s f).counter ≤ 4) ∧
    ((detectStep s f).captured = true → (detectStep s f).counter ≤ 5) := by
  cases hc : s.captured with
  | true =>
      rw [detectStep_of_captured s f hc]
      exact ⟨h4, h5⟩
  | false =>
      have hcnt : s.counter ≤ 4 := h4 hc
      by_cases h1 : (f.any fun p => p.cls == "glass") = true <;>
        by_cases h2 : (f.any fun p => p.cls == "G") = true <;>
        by_cases hcge : 4 ≤ s.counter <;>
        by_cases hc1 : 1 ≤ s.counter <;>
        simp [detectStep, hc, h1, h2, hcge, hc1] <;>
        omega

/-- The counter bounds hold in every state the loop reaches. -/
lemma foldl_counter_bound (fs : List (List Pred)) :
    ∀ s : LoopState,
      (s.captured = false → s.counter ≤ 4) → (s.captured = true → s.counter ≤ 5) →
      ((List.foldl detectStep s fs).captured = false →
          (List.foldl detectStep s fs).counter ≤ 4) ∧
      ((List.foldl detectStep s fs).captured = true →
          (List.foldl detectStep s fs).counter ≤ 5) := by
  induction fs with
  | nil => intro s h4 h5; exact ⟨h4, h5⟩
  | cons f fs ih =>
      intro s h4 h5
      rw [List.foldl_cons]
      have hstep := detectStep_counter_bound s f h4 h5
      exact ih (detectStep s f) hstep.1 hstep.2

/-- One tick preserves "the camera is active exactly while the capture
branch has not fired". -/
lemma detectStep_camera (s : LoopState) (f : List Pred)
    (h : s.cameraActive = !s.captured) :
    (detectStep s f).cameraActive = !(detectStep s f).captured := by
  cases hc : s.captured with
  | true => rw [detectStep_of_captured s f hc]; exact h
  | false =>
      by_cases h1 : (f.any fun p => p.cls == "glass") = true <;>
        by_cases h2 : (f.any fun p => p.cls == "G") = true <;>
        by_cases hcge : 4 ≤ s.counter <;>
        by_cases hc1 : 1 ≤ s.counter <;>
        simp [detectStep, hc, h1, h2, hcge, hc1] <;>
        rw [h, hc] <;> rfl

/-- The camera-capture linkage holds in every state the loop reaches. -/
lemma foldl_camera (fs : List (List Pred)) :
    ∀ s : LoopState, s.cameraActive = !s.captured →
      (List.foldl detectStep s fs).cameraActive =
        !(List.foldl detectStep s fs).captured := by
  induction fs with
  | nil => intro s h; exact h
  | cons f fs ih =>
      intro s h
      rw [List.foldl_cons]
      exact ih (detectStep s f) (detectStep_camera s f h)

/-- One tick preserves "the form has been submitted exactly when the
capture branch has fired". -/
lemma detectStep_submit (s : LoopState) (f : List Pred)
    (h : s.isSubmitting = s.captured) :
    (detectStep s f).isSubmitting = (detectStep s f).captured := by
  cases hc : s.captured with
  | true => rw [detectStep_of_captured s f hc]; exact h
  | false =>
      by_cases h1 : (f.any fun p => p.cls == "glass") = true <;>
        by_cases h2 : (f.any fun p => p.cls == "G") = true <;>
        by_cases hcge : 4 ≤ s.counter <;>
        by_cases hc1 : 1 ≤ s.counter <;>
        simp [detectStep, hc, h1, h2, hcge, hc1] <;>
        rw [h, hc]

/-- The loop performs at most one further submission from any state whose
submission flag agrees with its capture flag. -/
lemma runLoopCount_le (fs : List (List Pred)) :
    ∀ (s : LoopState) (n : Nat), s.isSubmitting = s.captured →
      (runLoopCount s n fs).2 ≤ n + (if s.captured = true then 0 else 1) := by
  induction fs with
  | nil =>
      intro s n _
      simp only [runLoopCount]
      split <;> omega
  | cons f fs ih =>
      intro s n h
      simp only [runLoopCount]
      have ht : (detectStep s f).isSubmitting = (detectStep s f).captured :=
        detectStep_submit s f h
      cases hc : s.captured with
      | true =>
          rw [detectStep_of_captured s f hc]
          have hz : (s.isSubmitting && !s.isSubmitting) = false := by
            cases s.isSubmitting <;> rfl
          rw [hz]
          have := ih s (n + if false = true then 1 else 0) h
          simp [hc] at this ⊢
          exact this
      | false =>
          have hsub : s.isSubmitting = false := by rw [h, hc]
          cases htc : (detectStep s f).captured with
          | false =>
              have hts : (detectStep s f).isSubmitting = false := by rw [ht, htc]
              rw [hts, hsub]
              have hrec := ih (detectStep s f) n ht
              rw [htc] at hrec
              simpa using hrec
          | true =>
              have hts : (detectStep s f).isSubmitting = true := by rw [ht, htc]
              rw [hts, hsub]
              have hrec := ih (detectStep s f) (n + 1) ht
              rw [htc] at hrec
              simpa using hrec

/-- Inversion of a successful run of the action: every check passed, the
first output and the inserted row exist, and the redirect targets the
inserted row's id. -/
lemma action_success_inv (env : Env) (img : String) (u ck : String)
    (h : (action env img).2 = Outcome.redirect u ck) :
    ∃ o sc, env.fetch.ok = true ∧ hasGOf env = true ∧
      env.fetch.body.outputs.head? = some o ∧
      (jsFalsy (splitVal o) || jsFalsy (pintVal o)) = false ∧
      env.db = DbResult.ok sc ∧
      u = "/score/" ++ toString sc.id ∧ ck = sessionCookie env := by
  cases hok : env.fetch.ok with
  | false =>
      rw [action_fetch_fail env img hok] at h
      exact absurd h (by simp)
  | true =>
      cases hg : hasGOf env with
      | false =>
          rw [action_noG env img hok hg] at h
          exact absurd h (by simp)
      | true =>
          obtain ⟨o, ho⟩ := head_some_of_hasG env hg
          cases him : (jsFalsy (splitVal o) || jsFalsy (pintVal o)) with
          | true =>
              rw [action_missing_image env img o hok hg ho him] at h
              exact absurd h (by simp)
          | false =>
              cases hdb : env.db with
              | err m =>
                  rw [action_db_err env img o m hok hg ho him hdb] at h
                  exact absurd h (by simp)
              | ok sc =>
                  rw [action_db_ok env img o sc hok hg ho him hdb] at h
                  simp only [Outcome.redirect.injEq] at h
                  exact ⟨o, sc, rfl, rfl, ho, him, rfl, h.1.symm, h.2.symm⟩

/-- Trace shapes of the action: either only the API call happened, or the
full successful sequence of effects ran. -/
lemma action_trace_cases (env : Env) (img : String) :
    (action env img).1 = [Event.apiCall img] ∨
    ∃ o, env.fetch.body.outputs.head? = some o ∧
      (action env img).1 = [Event.apiCall img,
        Event.upload "split-images" ((splitVal o).getD ""),
        Event.upload "pint-images" ((pintVal o).getD ""),
        Event.locationLookup env.clientIP,
        Event.dbInsert "scores" (rowOf env o)] := by
  cases hok : env.fetch.ok with
  | false => left; rw [action_fetch_fail env img hok]
  | true =>
      cases hg : hasGOf env with
      | false => left; rw [action_noG env img hok hg]
      | true =>
          obtain ⟨o, ho⟩ := head_some_of_hasG env hg
          cases him : (jsFalsy (splitVal o) || jsFalsy (pintVal o)) with
          | true => left; rw [action_missing_image env img o hok hg ho him]
          | false =>
              cases hdb : env.db with
              | err m =>
                  right
                  exact ⟨o, ho, by rw [action_db_err env img o m hok hg ho him hdb]⟩
              | ok sc =>
                  right
                  exact ⟨o, ho, by rw [action_db_ok env img o sc hok hg ho him hdb]⟩

/-- The threshold grade is always between 2 and 5. -/
lemma thresholdGrade_bounds (d : ℚ) : 2 ≤ thresholdGrade d ∧ thresholdGrade d ≤ 5 := by
  unfold thresholdGrade
  split_ifs <;> norm_num

/-- C1: for every submitted image the action processes successfully, it
performs, in order, the inference-API call, the upload of the split image
to the "split-images" bucket, the upload of the pint image to the
"pint-images" bucket, the location lookup, and exactly one insert into the
"scores" table, and it returns a redirect to `/score/<id>` of the inserted
row. -/
theorem action_success_steps_in_order (env : Env) (img u ck : String)
    (h : (action env img).2 = Outcome.redirect u ck) :
    (action env img).1 = successTrace env img ∧
    (action env img).1.countP isApiCall = 1 ∧
    (action env img).1.countP isUpload = 2 ∧
    (action env img).1.countP isDbInsert = 1 ∧
    dbIsOk env = true ∧
    u = "/score/" ++ toString (dbIdOf env) := by
  obtain ⟨o, sc, hok, hg, ho, him, hdb, hu, hck⟩ := action_success_inv env img u ck h
  rw [action_db_ok env img o sc hok hg ho him hdb]
  refine ⟨?_, ?_, ?_, ?_, ?_, ?_⟩
  · simp [successTrace, ho]
  · simp [List.countP_cons, List.countP_nil, isApiCall]
  · simp [List.countP_cons, List.countP_nil, isUpload]
  · simp [List.countP_cons, List.countP_nil, isDbInsert]
  · simp [dbIsOk, hdb]
  · rw [hu]
    simp [dbIdOf, hdb]

/-- Witness for C1 on a fully successful concrete environment. -/
theorem action_success_steps_in_order_witness :
    (action env0 "IMG").1 = successTrace env0 "IMG" ∧
    ("/score/7" : String) = "/score/" ++ toString (dbIdOf env0) :=
  ⟨(action_success_steps_in_order env0 "IMG" "/score/7"
      "split-g-session=sid-1; Path=/; Max-Age=31536000; SameSite=Lax" (by decide)).1,
   (action_success_steps_in_order env0 "IMG" "/score/7"
      "split-g-session=sid-1; Path=/; Max-Age=31536000; SameSite=Lax"
      (by decide)).2.2.2.2.2⟩

/-- C5: when the fetch succeeds but the pint-results predictions contain
no prediction of class "G", the action returns the 400 "No G detected"
object and performs no upload and no database insert. -/
theorem noG_returns_400_without_writes (env : Env) (img : String)
    (hok : env.fetch.ok = true)
    (hg : (pintPredictionsOf env.fetch.body).any (fun p => p.cls == "G") = false) :
    (action env img).2 =
      Outcome.failure false "No G detected" "No G pattern detected" 400 ∧
    (action env img).1.countP isUpload = 0 ∧
    (action env img).1.countP isDbInsert = 0 := by
  have hg' : hasGOf env = false := hg
  rw [action_noG env img hok hg']
  refine ⟨rfl, ?_, ?_⟩ <;> simp [List.countP_cons, List.countP_nil, isUpload, isDbInsert]

/-- Witness for C5 on a concrete response detecting only a glass. -/
theorem noG_returns_400_without_writes_witness :
    (action envNoG "IMG").2 =
      Outcome.failure false "No G detected" "No G pattern detected" 400 ∧
    (action envNoG "IMG").1.countP isUpload = 0 ∧
    (action envNoG "IMG").1.countP isDbInsert = 0 :=
  noG_returns_400_without_writes envNoG "IMG" rfl (by decide)

/-- C6 (amended): each failing step inside the `try` block — a non-ok
fetch, missing split or pint image data, or a database error — yields the
caught `{success: false, message: "Failed to process image", error, 500}`
object; a response lacking outputs, however, is reported as the 400
"No G detected" object, because the empty outputs also make the G check
fail first. -/
theorem action_error_paths (env : Env) (img : String) :
    (env.fetch.ok = false →
      (action env img).2 = Outcome.failure false
        ("API request failed (" ++ toString env.fetch.status ++ "): " ++ env.fetch.errorText)
        "Failed to process image" 500) ∧
    (∀ o, env.fetch.ok = true → hasGOf env = true →
      env.fetch.body.outputs.head? = some o →
      (jsFalsy (splitVal o) || jsFalsy (pintVal o)) = true →
      (action env img).2 = Outcome.failure false
        "Missing required image data from API response" "Failed to process image" 500) ∧
    (∀ o m, env.fetch.ok = true → hasGOf env = true →
      env.fetch.body.outputs.head? = some o →
      (jsFalsy (splitVal o) || jsFalsy (pintVal o)) = false →
      env.db = DbResult.err m →
      (action env img).2 = Outcome.failure false m "Failed to process image" 500) ∧
    (env.fetch.ok = true → env.fetch.body.outputs.head? = none →
      (action env img).2 =
        Outcome.failure false "No G detected" "No G pattern detected" 400) := by
  refine ⟨?_, ?_, ?_, ?_⟩
  · intro h
    rw [action_fetch_fail env img h]
  · intro o hok hg ho him
    rw [action_missing_image env img o hok hg ho him]
  · intro o m hok hg ho him hdb
    rw [action_db_err env img o m hok hg ho him hdb]
  · intro hok hnone
    rw [action_noG env img hok (hasGOf_of_head_none env hnone)]

/-- Witness for C6 on each concrete failure environment. -/
theorem action_error_paths_witness :
    (action envFetchFail "IMG").2 = Outcome.failure false
      "API request failed (503): unavailable" "Failed to process image" 500 ∧
    (action envDbErr "IMG").2 =
      Outcome.failure false "insert failed" "Failed to process image" 500 ∧
    (action envNoOutputs "IMG").2 =
      Outcome.failure false "No G detected" "No G pattern detected" 400 :=
  ⟨(action_error_paths envFetchFail "IMG").1 rfl,
   (action_error_paths envDbErr "IMG").2.2.1 out0ex "insert failed" rfl (by decide)
      rfl (by decide) rfl,
   (action_error_paths envNoOutputs "IMG").2.2.2 rfl rfl⟩

/-- Counterexample to C6 as stated: on a successful fetch whose response
lacks outputs, the action does not return the 500 "Failed to process
image" object; it returns the 400 "No G detected" object. -/
theorem missing_outputs_counterexample :
    (action envNoOutputs "IMG").2 =
      Outcome.failure false "No G detected" "No G pattern detected" 400 ∧
    statusOf (action envNoOutputs "IMG").2 ≠ 500 := by
  decide

/-- C7: the action calls the inference API exactly once on every input,
and a failed API request is never retried: the trace stops at the single
call and the error object is returned instead. -/
theorem api_called_at_most_once (env : Env) (img : String) :
    (action env img).1.countP isApiCall ≤ 1 ∧
    (env.fetch.ok = false →
      (action env img).1 = [Event.apiCall img] ∧
      (action env img).2 = Outcome.failure false
        ("API request failed (" ++ toString env.fetch.status ++ "): " ++ env.fetch.errorText)
        "Failed to process image" 500) := by
  constructor
  · rcases action_trace_cases env img with htr | ⟨o, ho, htr⟩ <;>
      rw [htr] <;>
      simp [List.countP_cons, List.countP_nil, isApiCall]
  · intro h
    rw [action_fetch_fail env img h]
    exact ⟨rfl, rfl⟩

/-- Witness for C7 on a concrete failed fetch. -/
theorem api_called_at_most_once_witness :
    (action envFetchFail "IMG").1 = [Event.apiCall "IMG"] ∧
    (action envFetchFail "IMG").2 = Outcome.failure false
      "API request failed (503): unavailable" "Failed to process image" 500 :=
  ⟨((api_called_at_most_once envFetchFail "IMG").2 rfl).1,
   ((api_called_at_most_once envFetchFail "IMG").2 rfl).2⟩

/-- C3: on every successful run, the single score the action inserts is
`calculateScore` applied to the first output object of the API response,
and that score is the threshold comparison of the weighted distance of the
geometric predictions, a numeric grade between 2 and 5. -/
theorem score_from_weighted_distance (env : Env) (img u ck : String) (o : Output)
    (h : (action env img).2 = Outcome.redirect u ck)
    (ho : env.fetch.body.outputs.head? = some o) :
    insertedScores (action env img).1 = [calculateScore o] ∧
    calculateScore o = thresholdGrade (weightedDistance o) ∧
    2 ≤ calculateScore o ∧ calculateScore o ≤ 5 := by
  obtain ⟨o', sc, hok, hg, ho', him, hdb, hu, hck⟩ := action_success_inv env img u ck h
  have hoo : o' = o := Option.some.inj (ho'.symm.trans ho)
  subst hoo
  rw [action_db_ok env img o' sc hok hg ho' him hdb]
  refine ⟨?_, rfl, (thresholdGrade_bounds _).1, (thresholdGrade_bounds _).2⟩
  simp [insertedScores, rowOf]

/-- Witness for C3 on the fully successful concrete environment. -/
theorem score_from_weighted_distance_witness :
    insertedScores (action env0 "IMG").1 = [calculateScore out0ex] ∧
    2 ≤ calculateScore out0ex :=
  ⟨(score_from_weighted_distance env0 "IMG" "/score/7"
      "split-g-session=sid-1; Path=/; Max-Age=31536000; SameSite=Lax" out0ex
      (by decide) rfl).1,
   (score_from_weighted_distance env0 "IMG" "/score/7"
      "split-g-session=sid-1; Path=/; Max-Age=31536000; SameSite=Lax" out0ex
      (by decide) rfl).2.2.1⟩

/-- C4: the detection loop captures exactly when five consecutive polled
frames each contain both a "glass" and a "G" prediction, and any frame
missing either class resets the consecutive-detection counter to 0, so no
shorter or interrupted streak triggers a capture. -/
theorem capture_iff_five_consecutive (fs : List (List Pred)) :
    ((runLoop fs).captured = true ↔
      ∃ l m r, fs = l ++ m ++ r ∧ m.length = 5 ∧ ∀ f ∈ m, goodFrame f = true) ∧
    (∀ s f, s.captured = false → goodFrame f = false →
      (detectStep s f).counter = 0) := by
  refine ⟨runLoop_captured_iff fs, ?_⟩
  intro s f hcap hbad
  cases h1 : (f.any fun p => p.cls == "glass") with
  | false => simp [detectStep, hcap, h1]
  | true =>
      have h2 : (f.any fun p => p.cls == "G") = false := by
        simpa [goodFrame, h1] using hbad
      simp [detectStep, hcap, h1, h2]

/-- Witness for C4: five good frames capture, and an empty frame resets a
partial streak. -/
theorem capture_iff_five_consecutive_witness :
    (runLoop fiveGood).captured = true ∧
    (detectStep midState badPreds).counter = 0 :=
  ⟨(capture_iff_five_consecutive fiveGood).1.mpr
      ⟨[], fiveGood, [], by simp, by decide, by decide⟩,
   (capture_iff_five_consecutive fiveGood).2 midState badPreds rfl (by decide)⟩

/-- Counterexample to C2 as stated: the capture decision is not a
majority vote over the polled frames.  After six undetecting frames and
five detecting ones the loop captures although only a minority of frames
detected, while thirteen alternating frames with a detecting majority
never capture. -/
theorem capture_majority_counterexample :
    ((runLoop burstFrames).captured = true ∧
      majorityOfFrames burstFrames = false) ∧
    ((runLoop alternatingFrames).captured = false ∧
      majorityOfFrames alternatingFrames = true) := by
  decide

/-- C2 (amended): the polling loop decides to auto-capture by its
consecutive-detection counter: the loop captures exactly when the
consecutive-streak rule fires, counting frames whose predictions contain
the required detections and resetting on every other frame. -/
theorem capture_follows_consecutive_counter (fs : List (List Pred)) :
    (runLoop fs).captured = consecutiveCaptureSpec 0 fs := by
  rw [runLoop]
  exact foldl_captured_eq fs initLoopState rfl

/-- C8: in every state the detection loop reaches, the
consecutive-detection counter never exceeds 5: it is at most 4 until the
capture branch fires, and the capture tick leaves it frozen at 5. -/
theorem counter_never_exceeds_five (fs : List (List Pred)) :
    (runLoop fs).counter ≤ 5 := by
  have h := foldl_counter_bound fs initLoopState (fun _ => by decide) (fun _ => by decide)
  rw [runLoop]
  cases hcap : (List.foldl detectStep initLoopState fs).captured with
  | false => exact le_trans (h.1 hcap) (by norm_num)
  | true => exact h.2 hcap

/-- C9: the loop's only concurrency mechanism is one periodic timer with
the fixed 500 ms period, present exactly while all the effect's
preconditions hold and cancelled otherwise; the capture branch deactivates
the camera, and the loop never submits more than one capture. -/
theorem timer_only_concurrency (d : EffectDeps) (fs : List (List Pred)) :
    (detectionInterval d = some detectIntervalMs ↔ effectGuard d = true) ∧
    (effectGuard d = false → detectionInterval d = none) ∧
    detectIntervalMs = 500 ∧
    ((runLoop fs).captured = true → (runLoop fs).cameraActive = false) ∧
    (runLoopCount initLoopState 0 fs).2 ≤ 1 := by
  refine ⟨?_, ?_, rfl, ?_, ?_⟩
  · cases hg : effectGuard d <;> simp [detectionInterval, hg]
  · intro h
    simp [detectionInterval, h]
  · intro hcap
    have hcam := foldl_camera fs initLoopState rfl
    rw [runLoop] at hcap ⊢
    rw [hcam, hcap]
    rfl
  · have h := runLoopCount_le fs initLoopState 0 rfl
    simpa [initLoopState] using h

/-- Witness for C9: the interval exists with all preconditions, vanishes
with the camera off, and five good frames deactivate the camera. -/
theorem timer_only_concurrency_witness :
    detectionInterval depsAll = some detectIntervalMs ∧
    detectionInterval depsCameraOff = none ∧
    (runLoop fiveGood).cameraActive = false :=
  ⟨(timer_only_concurrency depsAll []).1.mpr (by decide),
   (timer_only_concurrency depsCameraOff []).2.1 (by decide),
   (timer_only_concurrency depsAll fiveGood).2.2.2.1 (by decide)⟩

end SplitTheG
